import Mathlib

/-!
Shallow embedding of `src/tokio.rs` from `pyo3-asyncio`: the process-wide
tokio runtime handle registry (`TOKIO_RUNTIME_HANDLE : OnceCell<Handle>`),
its initialization entry points, the keep-alive driver thread for the
current-thread scheduler, and the task bridge (`run_until_complete`,
`into_coroutine`, which delegate to the `generic` module).

Rust panics (`expect`, `unwrap`) are modelled as an explicit `panic`
result carrying the panic message and the global state at the moment of
the panic.  Executor handles are modelled as opaque identifiers tagged
with the scheduler kind they were built with; `Runtime` ownership (which
Rust values are live, i.e. not yet dropped) is tracked explicitly so
that drop-before-return facts can be stated.
-/

namespace PyO3Asyncio

/-- The scheduler configuration a handle refers to.  `external` marks a
handle supplied by the caller of `init` rather than built in-module. -/
inductive Scheduler where
  | currentThread
  | multiThread
  | external
deriving DecidableEq, Repr

/-- `tokio::runtime::Handle`: an opaque, cloneable capability referencing a
live executor.  Cloning preserves both fields, so a clone is equal to the
original; we therefore represent a handle and its clones by one value. -/
structure Handle where
  id : Nat
  sched : Scheduler
deriving DecidableEq, Repr

/-- `tokio::runtime::Runtime`: the owning executor object.  `handle()`
returns (a reference to) its `Handle`. -/
structure Runtime where
  handle : Handle
deriving DecidableEq, Repr

/-- Global process state for the embedded module:
`cell` is the content of `TOKIO_RUNTIME_HANDLE`, `nextId` supplies fresh
executor identities to the two factory functions, `ownedRuntimes` lists
the ids of the `Runtime` objects currently alive (built, not yet
dropped), `driverCount` counts the keep-alive driver threads started by
`start_current_thread`. -/
structure TState where
  cell : Option Handle
  nextId : Nat
  ownedRuntimes : List Nat
  driverCount : Nat
deriving DecidableEq, Repr

/-- The state at process start: cell empty, no runtime built, no driver. -/
def initialState : TState := ⟨none, 0, [], 0⟩

/-- Outcome of calling one of the embedded functions: a normal return with
a value, or a Rust panic with its message; both carry the global state
after the call (a panic in `expect`/`unwrap` leaves the cell untouched). -/
inductive Ret (α : Type) where
  | ok : α → TState → Ret α
  | panic : String → TState → Ret α
deriving DecidableEq, Repr

/-- The state after the call, whether it returned or panicked. -/
def Ret.state : Ret α → TState
  | .ok _ s => s
  | .panic _ s => s

/-- The value a caller receives, `none` when the call panicked. -/
def Ret.value : Ret α → Option α
  | .ok a _ => some a
  | .panic _ _ => none

/-- `EXPECT_TOKIO_INIT`, the `expect` message of `get_handle`. -/
def EXPECT_TOKIO_INIT : String := "Tokio runtime must be initialized"

/-- `pub fn init(runtime: Handle)`: `TOKIO_RUNTIME_HANDLE.set(runtime)`
stores the handle if the cell is empty and otherwise returns an error,
which `.expect(..)` turns into a panic; the cell is never overwritten. -/
def init (h : Handle) (s : TState) : Ret Unit :=
  match s.cell with
  | some _ => .panic "Tokio Runtime has already been initialized" s
  | none => .ok () { s with cell := some h }

/-- `pub fn get_handle()`: `TOKIO_RUNTIME_HANDLE.get().expect(EXPECT_TOKIO_INIT)`. -/
def get_handle (s : TState) : Ret Handle :=
  match s.cell with
  | some h => .ok h s
  | none => .panic EXPECT_TOKIO_INIT s

/-- `fn current_thread() -> Runtime`: builds a fresh current-thread
executor (construction failure aborts the process and is not modelled as
a reachable outcome).  The new `Runtime` is owned until dropped. -/
def current_thread (s : TState) : Runtime × TState :=
  (⟨⟨s.nextId, Scheduler.currentThread⟩⟩,
   { s with nextId := s.nextId + 1, ownedRuntimes := s.nextId :: s.ownedRuntimes })

/-- `fn multi_thread() -> Runtime`: builds a fresh multi-thread executor. -/
def multi_thread (s : TState) : Runtime × TState :=
  (⟨⟨s.nextId, Scheduler.multiThread⟩⟩,
   { s with nextId := s.nextId + 1, ownedRuntimes := s.nextId :: s.ownedRuntimes })

/-- Dropping a `Runtime` value: it stops being owned. -/
def dropRuntime (r : Runtime) (s : TState) : TState :=
  { s with ownedRuntimes := s.ownedRuntimes.erase r.handle.id }

/-- `fn start_current_thread()`: spawns the background keep-alive thread
(`thread::spawn(|| TOKIO_RUNTIME_HANDLE.get().unwrap().block_on(pending::<()>()))`).
Here we record that one more driver thread was started; the behaviour of
the spawned thread itself is modelled below by `first_ready`/`pending_poll`. -/
def start_current_thread (s : TState) : TState :=
  { s with driverCount := s.driverCount + 1 }

/-- `pub fn init_current_thread()`:
`init(current_thread().handle().clone()); start_current_thread();`.
The temporary `Runtime` built by `current_thread()` is dropped at the end
of the first statement — also on the unwind path when `init` panics —
so only the cloned `Handle` survives in the cell. -/
def init_current_thread (s : TState) : Ret Unit :=
  let (rt, s1) := current_thread s
  match init rt.handle s1 with
  | .panic m s2 => .panic m (dropRuntime rt s2)
  | .ok _ s2 => .ok () (start_current_thread (dropRuntime rt s2))

/-- `pub fn init_multi_thread()`: `init(multi_thread().handle().clone());`
with the temporary `Runtime` dropped at the end of the statement. -/
def init_multi_thread (s : TState) : Ret Unit :=
  let (rt, s1) := multi_thread s
  match init rt.handle s1 with
  | .panic m s2 => .panic m (dropRuntime rt s2)
  | .ok _ s2 => .ok () (dropRuntime rt s2)

/-- `pub fn init_multi_thread_once()`:
`TOKIO_RUNTIME_HANDLE.get_or_init(|| multi_thread().handle().clone());`.
If the cell is full this is a no-op; otherwise the closure builds a
runtime, installs a clone of its handle, and the `Runtime` temporary is
dropped when the closure returns.  The function returns `()`. -/
def init_multi_thread_once (s : TState) : Ret Unit :=
  match s.cell with
  | some _ => .ok () s
  | none =>
    let (rt, s1) := multi_thread s
    .ok () (dropRuntime rt { s1 with cell := some rt.handle })

/-- The `get_or_init` call inside `init_current_thread_once`, together
with the closure-captured `initialized` flag: returns the value of the
local flag after the call (true exactly when the closure ran, i.e. when
this call performed the install) and the updated state. -/
def get_or_init_current_thread (s : TState) : Bool × TState :=
  match s.cell with
  | some _ => (false, s)
  | none =>
    let (rt, s1) := current_thread s
    (true, dropRuntime rt { s1 with cell := some rt.handle })

/-- `pub fn init_current_thread_once()`: runs `get_or_init` with a flag
set inside the closure, then starts the keep-alive driver exactly when
the flag was set.  Returns `()` — the flag is not returned. -/
def init_current_thread_once (s : TState) : Ret Unit :=
  let p := get_or_init_current_thread s
  if p.1 then .ok () (start_current_thread p.2) else .ok () p.2

/-- The public entry points of the module that touch the global state,
for reasoning about arbitrary call sequences. -/
inductive Call where
  | init (h : Handle)
  | init_current_thread
  | init_multi_thread
  | init_multi_thread_once
  | init_current_thread_once
  | get_handle
deriving DecidableEq, Repr

/-- The global state after one call (whether it returned or panicked). -/
def step (c : Call) (s : TState) : TState :=
  match c with
  | .init h => (init h s).state
  | .init_current_thread => (init_current_thread s).state
  | .init_multi_thread => (init_multi_thread s).state
  | .init_multi_thread_once => (init_multi_thread_once s).state
  | .init_current_thread_once => (init_current_thread_once s).state
  | .get_handle => (get_handle s).state

/-- The global state after a sequence of calls, first call first. -/
def steps (cs : List Call) (s : TState) : TState :=
  match cs with
  | [] => s
  | c :: rest => steps rest (step c s)

/-! ### Helper lemmas: the cell is write-once -/

/-- No entry point changes a cell that already holds a handle. -/
theorem step_cell_some (c : Call) (s : TState) (h : Handle)
    (hs : s.cell = some h) : (step c s).cell = some h := by
  cases c <;>
    simp [step, init, get_handle, init_current_thread, init_multi_thread,
      init_multi_thread_once, init_current_thread_once, get_or_init_current_thread,
      current_thread, multi_thread, dropRuntime, start_current_thread, Ret.state, hs]

/-- No call sequence changes a cell that already holds a handle. -/
theorem steps_cell_some (cs : List Call) (s : TState) (h : Handle)
    (hs : s.cell = some h) : (steps cs s).cell = some h := by
  induction cs generalizing s with
  | nil => exact hs
  | cons c rest ih => exact ih (step c s) (step_cell_some c s h hs)

/-- `init` succeeds exactly on an empty cell, and then only fills the cell. -/
theorem init_ok_iff (h : Handle) (s s' : TState) :
    init h s = Ret.ok () s' ↔ s.cell = none ∧ s' = { s with cell := some h } := by
  constructor
  · intro he
    cases hc : s.cell with
    | some h₀ => simp [init, hc] at he
    | none =>
      simp [init, hc] at he
      exact ⟨rfl, he.symm⟩
  · rintro ⟨hc, rfl⟩
    simp [init, hc]

/-! ### Claims about the registry -/

/-- Claim C1: once a handle is installed, any further `init` panics with
"Tokio Runtime has already been initialized" and leaves the state (in
particular the cell) unchanged, and no sequence of calls to the module's
entry points ever replaces the installed handle. -/
theorem init_strict_single_shot (s : TState) (h₀ : Handle)
    (hs : s.cell = some h₀) :
    (∀ h, init h s = Ret.panic "Tokio Runtime has already been initialized" s) ∧
    (∀ cs, (steps cs s).cell = some h₀) := by
  refine ⟨fun h => by simp [init, hs], fun cs => steps_cell_some cs s h₀ hs⟩

/-- Witness for C1 at a concrete installed state and concrete calls. -/
theorem init_strict_single_shot_witness :
    init ⟨5, Scheduler.external⟩ ⟨some ⟨0, Scheduler.multiThread⟩, 1, [], 0⟩ =
      Ret.panic "Tokio Runtime has already been initialized"
        ⟨some ⟨0, Scheduler.multiThread⟩, 1, [], 0⟩ ∧
    (steps [Call.init_current_thread, Call.init_multi_thread_once, Call.init ⟨9, Scheduler.external⟩]
        ⟨some ⟨0, Scheduler.multiThread⟩, 1, [], 0⟩).cell = some ⟨0, Scheduler.multiThread⟩ :=
  ⟨(init_strict_single_shot _ _ rfl).1 _, (init_strict_single_shot _ _ rfl).2 _⟩

/-- Claim C2: before any successful install `get_handle` panics with
`EXPECT_TOKIO_INIT` ("Tokio runtime must be initialized"); after the one
successful install of `h`, `get_handle` returns exactly `h` after every
further call sequence. -/
theorem get_handle_resolve (s : TState) (h : Handle) (s' : TState)
    (hinit : init h s = Ret.ok () s') (cs : List Call) :
    get_handle s = Ret.panic EXPECT_TOKIO_INIT s ∧
    get_handle (steps cs s') = Ret.ok h (steps cs s') := by
  obtain ⟨hc, rfl⟩ := (init_ok_iff h s s').mp hinit
  constructor
  · simp [get_handle, hc]
  · have hcell : (steps cs { s with cell := some h }).cell = some h :=
      steps_cell_some cs _ h rfl
    simp [get_handle, hcell]

/-- Witness for C2: install an external handle into the fresh process
state, then resolve after two further calls. -/
theorem get_handle_resolve_witness :
    get_handle initialState = Ret.panic EXPECT_TOKIO_INIT initialState ∧
    get_handle (steps [Call.init_multi_thread, Call.get_handle]
        { initialState with cell := some ⟨7, Scheduler.external⟩ }) =
      Ret.ok ⟨7, Scheduler.external⟩
        (steps [Call.init_multi_thread, Call.get_handle]
          { initialState with cell := some ⟨7, Scheduler.external⟩ }) :=
  get_handle_resolve initialState ⟨7, Scheduler.external⟩ _ rfl
    [Call.init_multi_thread, Call.get_handle]

/-- Claim C5: when a handle is already installed, both `_once` variants
return without panicking and leave the state completely unchanged — in
particular `nextId` is unchanged (no new executor is built), no driver is
started, and `get_handle` still returns the original handle. -/
theorem once_variants_idempotent (s : TState) (h₀ : Handle)
    (hs : s.cell = some h₀) :
    init_multi_thread_once s = Ret.ok () s ∧
    init_current_thread_once s = Ret.ok () s ∧
    get_handle s = Ret.ok h₀ s := by
  refine ⟨by simp [init_multi_thread_once, hs],
          by simp [init_current_thread_once, get_or_init_current_thread, hs],
          by simp [get_handle, hs]⟩

/-- Witness for C5 at a concrete installed state. -/
theorem once_variants_idempotent_witness :
    init_multi_thread_once ⟨some ⟨3, Scheduler.currentThread⟩, 4, [], 1⟩ =
      Ret.ok () ⟨some ⟨3, Scheduler.currentThread⟩, 4, [], 1⟩ ∧
    init_current_thread_once ⟨some ⟨3, Scheduler.currentThread⟩, 4, [], 1⟩ =
      Ret.ok () ⟨some ⟨3, Scheduler.currentThread⟩, 4, [], 1⟩ ∧
    get_handle ⟨some ⟨3, Scheduler.currentThread⟩, 4, [], 1⟩ =
      Ret.ok ⟨3, Scheduler.currentThread⟩ ⟨some ⟨3, Scheduler.currentThread⟩, 4, [], 1⟩ :=
  once_variants_idempotent _ _ rfl

/-! ### The keep-alive driver -/

/-- A single call either leaves `driverCount` unchanged, or increments it
by one; the latter happens only when the cell was empty, the call was one
of the two current-thread initializers, and it installed the handle of
the current-thread executor it had just built. -/
theorem step_driver_char (c : Call) (s : TState) :
    (step c s).driverCount = s.driverCount ∨
    ((step c s).driverCount = s.driverCount + 1 ∧ s.cell = none ∧
      (c = Call.init_current_thread ∨ c = Call.init_current_thread_once) ∧
      (step c s).cell = some ⟨s.nextId, Scheduler.currentThread⟩) := by
  cases c with
  | init h => left; cases hc : s.cell <;> simp [step, init, Ret.state, hc]
  | init_current_thread =>
    cases hc : s.cell with
    | none =>
      right
      simp [step, init_current_thread, current_thread, init, dropRuntime,
        start_current_thread, Ret.state, hc]
    | some h =>
      left
      simp [step, init_current_thread, current_thread, init, dropRuntime, Ret.state, hc]
  | init_multi_thread =>
    left; cases hc : s.cell <;>
      simp [step, init_multi_thread, multi_thread, init, dropRuntime, Ret.state, hc]
  | init_multi_thread_once =>
    left; cases hc : s.cell <;>
      simp [step, init_multi_thread_once, multi_thread, dropRuntime, Ret.state, hc]
  | init_current_thread_once =>
    cases hc : s.cell with
    | none =>
      right
      simp [step, init_current_thread_once, get_or_init_current_thread,
        current_thread, dropRuntime, start_current_thread, Ret.state, hc]
    | some h =>
      left
      simp [step, init_current_thread_once, get_or_init_current_thread, Ret.state, hc]
  | get_handle => left; cases hc : s.cell <;> simp [step, get_handle, Ret.state, hc]

/-- Invariant tying the driver count to the installed handle. -/
def DriverInv (s : TState) : Prop :=
  s.driverCount ≤ 1 ∧
  (s.driverCount = 1 → ∃ h, s.cell = some h ∧ h.sched = Scheduler.currentThread)

/-- One call preserves `DriverInv`. -/
theorem step_DriverInv (c : Call) (s : TState) (hi : DriverInv s) :
    DriverInv (step c s) := by
  rcases step_driver_char c s with heq | ⟨hinc, hnone, _, hcell⟩
  · refine ⟨heq ▸ hi.1, fun h1 => ?_⟩
    obtain ⟨h, hs, hk⟩ := hi.2 (heq ▸ h1)
    exact ⟨h, step_cell_some c s h hs, hk⟩
  · have hle := hi.1
    have h0 : s.driverCount = 0 := by
      rcases Nat.lt_or_ge s.driverCount 1 with hlt | hge
      · omega
      · have h1 : s.driverCount = 1 := by omega
        obtain ⟨h, hs, _⟩ := hi.2 h1
        rw [hnone] at hs
        exact absurd hs (by simp)
    exact ⟨by omega, fun _ => ⟨⟨s.nextId, Scheduler.currentThread⟩, hcell, rfl⟩⟩

/-- Every state reachable from process start satisfies `DriverInv`. -/
theorem steps_DriverInv (cs : List Call) : DriverInv (steps cs initialState) := by
  suffices h : ∀ s, DriverInv s → DriverInv (steps cs s) from
    h initialState ⟨by simp [initialState], by simp [initialState]⟩
  induction cs with
  | nil => exact fun s hs => hs
  | cons c rest ih => exact fun s hs => ih (step c s) (step_DriverInv c s hs)

/-- Claim C6: across every sequence of entry-point calls from process
start at most one keep-alive driver thread is ever started, and any
single call that starts a driver is an install-performing current-thread
initializer: the cell was empty before, the call was
`init_current_thread` or `init_current_thread_once`, and it installed the
handle of the current-thread executor it built.  In particular an
already-installed `init_current_thread_once` and every multi-thread
install leave the driver count unchanged. -/
theorem driver_started_at_most_once (cs : List Call) (s : TState) (c : Call)
    (hinc : (step c s).driverCount ≠ s.driverCount) :
    (steps cs initialState).driverCount ≤ 1 ∧
    (s.cell = none ∧
      (c = Call.init_current_thread ∨ c = Call.init_current_thread_once) ∧
      (step c s).cell = some ⟨s.nextId, Scheduler.currentThread⟩) := by
  refine ⟨(steps_DriverInv cs).1, ?_⟩
  rcases step_driver_char c s with heq | ⟨_, hnone, hc, hcell⟩
  · exact absurd heq hinc
  · exact ⟨hnone, hc, hcell⟩

/-- Witness for C6: a concrete double `init_current_thread` sequence
starts only one driver, and the first call from the fresh state is an
install-performing driver start. -/
theorem driver_started_at_most_once_witness :
    (steps [Call.init_current_thread, Call.init_current_thread]
      initialState).driverCount ≤ 1 ∧
    (initialState.cell = none ∧
      (Call.init_current_thread = Call.init_current_thread ∨
        Call.init_current_thread = Call.init_current_thread_once) ∧
      (step Call.init_current_thread initialState).cell =
        some ⟨initialState.nextId, Scheduler.currentThread⟩) :=
  driver_started_at_most_once [Call.init_current_thread, Call.init_current_thread]
    initialState Call.init_current_thread (by decide)

/-! ### The never-completing keep-alive future -/

/-- Poll outcome of a future, as in `std::task::Poll`. -/
inductive Poll (α : Type) where
  | ready : α → Poll α
  | pending
deriving DecidableEq, Repr

/-- `futures::future::pending::<()>`, the future the driver thread blocks
on: its n-th poll, for every n, returns `Pending` (and it never registers
a wakeup, so it is never polled to readiness). -/
def pending_poll : Nat → Poll Unit := fun _ => Poll.pending

/-- What `block_on(f)` has produced after the first `n` polls of `f`:
`some a` once some poll among them returned `ready a`, `none` while the
call is still blocked. -/
def first_ready (f : Nat → Poll α) : Nat → Option α
  | 0 => none
  | n + 1 =>
    match first_ready f n with
    | some a => some a
    | none =>
      match f n with
      | Poll.ready a => some a
      | Poll.pending => none

/-- `block_on(pending())` is still blocked after any number of polls. -/
theorem first_ready_pending_none (n : Nat) :
    first_ready pending_poll n = none := by
  induction n with
  | zero => rfl
  | succ n ih => simp [first_ready, pending_poll, ih]

/-- Claim C7: the pending future the driver submits suspends forever —
every poll returns `Pending` — so the driver thread's `block_on` call has
not returned after any number of polls, i.e. it never returns. -/
theorem driver_block_on_never_returns (n : Nat) :
    pending_poll n = Poll.pending ∧ first_ready pending_poll n = none :=
  ⟨rfl, first_ready_pending_none n⟩

/-! ### Keep-alive responsiveness (modelled executor semantics) -/

/-- Modelled from the spec: a current-thread executor is alive at instant
`t` exactly while some thread is blocked inside `block_on` on it; here
that thread is the keep-alive driver, blocked on the pending future. -/
def keep_alive_at (t : Nat) : Bool := (first_ready pending_poll t).isNone

/-- Modelled from the spec ("the executor stays alive, continuously
polling any tasks submitted to it"): the number of polls a task submitted
at instant `t₀` has received by instant `t` — one per instant at which
the executor is alive. -/
def polls_received (t₀ t : Nat) : Nat :=
  ((List.range t).filter (fun k => decide (t₀ ≤ k) && keep_alive_at k)).length

/-- Modelled from the spec: a task needing `fuel` polls, submitted at
`t₀`, has been run to completion by instant `t`. -/
def task_completed_by (t₀ fuel t : Nat) : Bool :=
  decide (fuel ≤ polls_received t₀ t)

/-- The executor is alive at every instant: the driver never unblocks. -/
theorem keep_alive_at_true (t : Nat) : keep_alive_at t = true := by
  simp [keep_alive_at, first_ready_pending_none]

/-- A task submitted at `t₀` has received exactly `fuel` polls by
`t₀ + fuel`. -/
theorem polls_received_add (t₀ fuel : Nat) :
    polls_received t₀ (t₀ + fuel) = fuel := by
  induction fuel with
  | zero =>
    simp only [Nat.add_zero, polls_received, List.length_eq_zero, List.filter_eq_nil_iff]
    intro k hk
    simp only [List.mem_range] at hk
    simp [Nat.not_le.mpr hk]
  | succ n ih =>
    have hr : List.range (t₀ + (n + 1)) = List.range (t₀ + n) ++ [t₀ + n] := by
      rw [← Nat.add_assoc, List.range_succ]
    simp only [polls_received, hr, List.filter_append, List.length_append]
    have h1 : (List.filter (fun k => decide (t₀ ≤ k) && keep_alive_at k) [t₀ + n]).length = 1 := by
      simp [List.filter, keep_alive_at_true, Nat.le_add_right]
    rw [h1]
    exact congrArg (· + 1) ih

/-- Claim C8: `init_current_thread` from the fresh process state installs
the current-thread executor's handle and starts the keep-alive driver,
and under the modelled executor semantics the executor is alive at every
later instant, so a task submitted at any instant `t₀` needing any finite
number `fuel` of polls is run to completion (by instant `t₀ + fuel`). -/
theorem keep_alive_responsive :
    init_current_thread initialState =
      Ret.ok () ⟨some ⟨0, Scheduler.currentThread⟩, 1, [], 1⟩ ∧
    (∀ t, keep_alive_at t = true) ∧
    (∀ t₀ fuel, task_completed_by t₀ fuel (t₀ + fuel) = true) := by
  refine ⟨by decide, keep_alive_at_true, fun t₀ fuel => ?_⟩
  simp [task_completed_by, polls_received_add]

/-! ### Runtime ownership: the built Runtime is dropped before return -/

/-- No call retains ownership of a `Runtime` object across its return. -/
theorem step_owned (c : Call) (s : TState) :
    (step c s).ownedRuntimes = s.ownedRuntimes := by
  cases c <;> cases hc : s.cell <;>
    simp [step, init, get_handle, init_current_thread, init_multi_thread,
      init_multi_thread_once, init_current_thread_once, get_or_init_current_thread,
      current_thread, multi_thread, dropRuntime, start_current_thread, Ret.state, hc]

/-- No call sequence retains ownership of a `Runtime` object. -/
theorem steps_owned (cs : List Call) (s : TState) :
    (steps cs s).ownedRuntimes = s.ownedRuntimes := by
  induction cs generalizing s with
  | nil => rfl
  | cons c rest ih => rw [steps, ih, step_owned]

/-- Claim C10: every install entry point that builds its own executor
drops the built `Runtime` value before returning — the owned-runtime set
is exactly what it was before the call — while the cell retains only the
(cloned) `Handle` of that executor; and along every call sequence from
process start the process owns no `Runtime` object at all. -/
theorem runtime_dropped_before_return (s : TState) (hs : s.cell = none) :
    (init_current_thread s).state.ownedRuntimes = s.ownedRuntimes ∧
    (init_current_thread s).state.cell = some ⟨s.nextId, Scheduler.currentThread⟩ ∧
    (init_multi_thread s).state.ownedRuntimes = s.ownedRuntimes ∧
    (init_multi_thread s).state.cell = some ⟨s.nextId, Scheduler.multiThread⟩ ∧
    (init_multi_thread_once s).state.ownedRuntimes = s.ownedRuntimes ∧
    (init_multi_thread_once s).state.cell = some ⟨s.nextId, Scheduler.multiThread⟩ ∧
    (init_current_thread_once s).state.ownedRuntimes = s.ownedRuntimes ∧
    (init_current_thread_once s).state.cell = some ⟨s.nextId, Scheduler.currentThread⟩ ∧
    (∀ cs, (steps cs initialState).ownedRuntimes = []) := by
  refine ⟨?_, ?_, ?_, ?_, ?_, ?_, ?_, ?_, ?_⟩
  · simp [init_current_thread, current_thread, init, dropRuntime, start_current_thread,
      Ret.state, hs]
  · simp [init_current_thread, current_thread, init, dropRuntime, start_current_thread,
      Ret.state, hs]
  · simp [init_multi_thread, multi_thread, init, dropRuntime, Ret.state, hs]
  · simp [init_multi_thread, multi_thread, init, dropRuntime, Ret.state, hs]
  · simp [init_multi_thread_once, multi_thread, dropRuntime, Ret.state, hs]
  · simp [init_multi_thread_once, multi_thread, dropRuntime, Ret.state, hs]
  · simp [init_current_thread_once, get_or_init_current_thread, current_thread,
      dropRuntime, start_current_thread, Ret.state, hs]
  · simp [init_current_thread_once, get_or_init_current_thread, current_thread,
      dropRuntime, start_current_thread, Ret.state, hs]
  · intro cs
    rw [steps_owned]
    rfl

/-- Witness for C10 at the fresh process state. -/
theorem runtime_dropped_before_return_witness :
    (init_current_thread initialState).state.ownedRuntimes = initialState.ownedRuntimes ∧
    (init_current_thread initialState).state.cell =
      some ⟨initialState.nextId, Scheduler.currentThread⟩ ∧
    (init_multi_thread initialState).state.ownedRuntimes = initialState.ownedRuntimes ∧
    (init_multi_thread initialState).state.cell =
      some ⟨initialState.nextId, Scheduler.multiThread⟩ ∧
    (init_multi_thread_once initialState).state.ownedRuntimes = initialState.ownedRuntimes ∧
    (init_multi_thread_once initialState).state.cell =
      some ⟨initialState.nextId, Scheduler.multiThread⟩ ∧
    (init_current_thread_once initialState).state.ownedRuntimes = initialState.ownedRuntimes ∧
    (init_current_thread_once initialState).state.cell =
      some ⟨initialState.nextId, Scheduler.currentThread⟩ ∧
    (∀ cs, (steps cs initialState).ownedRuntimes = []) :=
  runtime_dropped_before_return initialState rfl

/-! ### The task bridge: drive-to-completion (`run_until_complete`)

The module delegates to `generic::run_until_complete`; the `generic`
module is part of the repository but not present under `src/`, so the
bridge mechanism is modelled from the spec (§4.4 drive-to-completion),
while `JoinError::is_panic` is embedded from `src/tokio.rs` lines 37–41. -/

/-- The behaviour of one unit of asynchronous work driven by the bridge:
it completes with a value, returns an application-level failure, panics
with a message, or is cancelled. -/
inductive TaskBehavior (α ε : Type) where
  | completes : α → TaskBehavior α ε
  | fails : ε → TaskBehavior α ε
  | panics : String → TaskBehavior α ε
  | cancelled : TaskBehavior α ε
deriving DecidableEq, Repr

/-- `tokio::task::JoinError`: a joined task failed either because it
panicked (carrying the panic message) or because it was cancelled. -/
inductive JoinError where
  | panicked : String → JoinError
  | cancelled : JoinError
deriving DecidableEq, Repr

/-- `impl generic::JoinError for task::JoinError` (src/tokio.rs lines
37–41): `is_panic` delegates to `task::JoinError::is_panic`, true exactly
for the panic variant. -/
def JoinError.is_panic : JoinError → Bool
  | .panicked _ => true
  | .cancelled => false

/-- The message text carried by a join error. -/
def JoinError.message : JoinError → String
  | .panicked m => m
  | .cancelled => "cancelled"

/-- Joining the spawned task: a panicking or cancelled task surfaces as a
`JoinError`; otherwise the join yields the task's own `Result`. -/
def join_task (b : TaskBehavior α ε) : Except JoinError (Except ε α) :=
  match b with
  | .completes a => .ok (.ok a)
  | .fails e => .ok (.error e)
  | .panics m => .error (JoinError.panicked m)
  | .cancelled => .error JoinError.cancelled

/-- The caller-visible outcome of a drive-to-completion call. -/
inductive Outcome (α ε : Type) where
  | success : α → Outcome α ε
  | panicked : String → Outcome α ε
  | cancelled : Outcome α ε
  | appFailure : ε → Outcome α ε
deriving DecidableEq, Repr

/-- Modelled from the spec (§4.4, `generic::run_until_complete` is not
under `src/`): translate the join result into the foreign error/value
convention, discriminating panic from cancellation via `is_panic`. -/
def translate_join (r : Except JoinError (Except ε α)) : Outcome α ε :=
  match r with
  | .ok (.ok a) => Outcome.success a
  | .ok (.error e) => Outcome.appFailure e
  | .error j => if j.is_panic then Outcome.panicked j.message else Outcome.cancelled

/-- Modelled from the spec: `run_until_complete` spawns the task, blocks
on its join handle, and reports the translated outcome. -/
def run_until_complete (b : TaskBehavior α ε) : Outcome α ε :=
  translate_join (join_task b)

/-- Claim C3: every drive-to-completion call reports exactly one of the
four outcomes — the task's value on normal completion, a panic-tagged
failure carrying the panic message, a cancellation-tagged failure, or the
task's own application-level failure passed through unchanged; a
panic-tagged failure is distinguishable (via `is_panic`) from an
application-level failure with the same message text. -/
theorem run_until_complete_exactly_one (α ε : Type) (b : TaskBehavior α ε) :
    ((∃ a, b = TaskBehavior.completes a ∧ run_until_complete b = Outcome.success a) ∨
     (∃ m, b = TaskBehavior.panics m ∧ run_until_complete b = Outcome.panicked m) ∨
     (b = TaskBehavior.cancelled ∧ run_until_complete b = Outcome.cancelled) ∨
     (∃ e, b = TaskBehavior.fails e ∧ run_until_complete b = Outcome.appFailure e)) ∧
    (∀ m : String,
      run_until_complete (TaskBehavior.panics (α := α) (ε := String) m) ≠
        run_until_complete (TaskBehavior.fails m)) ∧
    (∀ j : JoinError,
      (∃ m, translate_join (Except.error j : Except JoinError (Except ε α)) =
          Outcome.panicked m) ↔ j.is_panic = true) := by
  refine ⟨?_, ?_, ?_⟩
  · cases b with
    | completes a =>
      exact Or.inl ⟨a, rfl, by simp [run_until_complete, join_task, translate_join]⟩
    | fails e =>
      refine Or.inr (Or.inr (Or.inr ⟨e, rfl, ?_⟩))
      simp [run_until_complete, join_task, translate_join]
    | panics m =>
      refine Or.inr (Or.inl ⟨m, rfl, ?_⟩)
      simp [run_until_complete, join_task, translate_join, JoinError.is_panic,
        JoinError.message]
    | cancelled =>
      refine Or.inr (Or.inr (Or.inl ⟨rfl, ?_⟩))
      simp [run_until_complete, join_task, translate_join, JoinError.is_panic]
  · intro m
    simp [run_until_complete, join_task, translate_join, JoinError.is_panic,
      JoinError.message]
  · intro j
    cases j <;> simp [translate_join, JoinError.is_panic, JoinError.message]

/-- Witness for C3 at a concrete panicking task: the outcome is the
panic-tagged failure, distinguishable from an application-level failure
with the same message. -/
theorem run_until_complete_exactly_one_witness :
    ((∃ a, (TaskBehavior.panics (α := Nat) (ε := String) "boom") = TaskBehavior.completes a ∧
        run_until_complete (TaskBehavior.panics (α := Nat) (ε := String) "boom") =
          Outcome.success a) ∨
     (∃ m, (TaskBehavior.panics (α := Nat) (ε := String) "boom") = TaskBehavior.panics m ∧
        run_until_complete (TaskBehavior.panics (α := Nat) (ε := String) "boom") =
          Outcome.panicked m) ∨
     ((TaskBehavior.panics (α := Nat) (ε := String) "boom") = TaskBehavior.cancelled ∧
        run_until_complete (TaskBehavior.panics (α := Nat) (ε := String) "boom") =
          Outcome.cancelled) ∨
     (∃ e, (TaskBehavior.panics (α := Nat) (ε := String) "boom") = TaskBehavior.fails e ∧
        run_until_complete (TaskBehavior.panics (α := Nat) (ε := String) "boom") =
          Outcome.appFailure e)) ∧
    run_until_complete (TaskBehavior.panics (α := Nat) (ε := String) "boom") ≠
      run_until_complete (TaskBehavior.fails "boom") :=
  ⟨(run_until_complete_exactly_one Nat String (TaskBehavior.panics "boom")).1,
   (run_until_complete_exactly_one Nat String (TaskBehavior.panics "boom")).2.1 "boom"⟩

/-! ### The task bridge: expose-as-coroutine (`into_coroutine`)

Again `generic::into_coroutine` is repository code not under `src/`, so
the bridge future lifecycle is modelled from the spec (§4.4
expose-as-coroutine). -/

/-- Settlement state of a foreign-visible bridge future. -/
inductive BStatus (α ε : Type) where
  | pending : BStatus α ε
  | resolved : α → BStatus α ε
  | rejected : ε → BStatus α ε
deriving DecidableEq, Repr

/-- Settling with the native future's direct result: a value resolves,
a failure rejects. -/
def settle_with : Except ε α → BStatus α ε
  | .ok a => BStatus.resolved a
  | .error e => BStatus.rejected e

/-- Modelled from the spec: a bridge future paired with the spawned task
that will settle it.  `result` is the value/failure the underlying native
future produces when awaited directly, `remaining` the number of polls
the native future still needs, `status` the settlement state seen by the
foreign scheduler. -/
structure BridgeFuture (α ε : Type) where
  result : Except ε α
  remaining : Nat
  status : BStatus α ε
deriving Repr

/-- Modelled from the spec: `into_coroutine` creates the bridge future in
pending state and spawns the task; it returns the (still pending)
awaitable immediately, whatever `d`, the number of polls the native
future needs — the caller is never blocked on the future's completion. -/
def into_coroutine (f : Except ε α) (d : Nat) : BridgeFuture α ε :=
  ⟨f, d, BStatus.pending⟩

/-- One instant of the spawned task: poll the native future if it still
needs polls; once it is done, settle the bridge future — only if it is
still pending, so a settled future is never settled again. -/
def bridge_step (c : BridgeFuture α ε) : BridgeFuture α ε :=
  match c.remaining with
  | n + 1 => { c with remaining := n }
  | 0 =>
    match c.status with
    | BStatus.pending => { c with status := settle_with c.result }
    | _ => c

/-- The bridge future after `t` instants of the spawned task. -/
def bridge_run (c : BridgeFuture α ε) : Nat → BridgeFuture α ε
  | 0 => c
  | t + 1 => bridge_step (bridge_run c t)

/-- The settled state is never the pending state. -/
theorem settle_with_ne_pending (f : Except ε α) :
    settle_with f ≠ BStatus.pending := by
  cases f <;> simp [settle_with]

/-- Full trajectory of a bridge future: pending up to and including
instant `d`, settled with the native result from instant `d + 1` on. -/
theorem bridge_run_char (f : Except ε α) (d t : Nat) :
    bridge_run (into_coroutine f d) t =
      ⟨f, d - t, if t ≤ d then BStatus.pending else settle_with f⟩ := by
  induction t with
  | zero => simp [bridge_run, into_coroutine]
  | succ t ih =>
    rcases Nat.lt_trichotomy t d with hlt | heq | hgt
    · have h1 : d - t = (d - (t + 1)) + 1 := by omega
      have h2 : t ≤ d := Nat.le_of_lt hlt
      have h3 : t + 1 ≤ d := hlt
      rw [bridge_run, ih, h1]
      simp [bridge_step, h2, h3]
    · subst heq
      rw [bridge_run, ih]
      simp [bridge_step, Nat.sub_self]
    · have h2 : ¬ t ≤ d := by omega
      have h3 : ¬ t + 1 ≤ d := by omega
      have h4 : d - t = 0 := by omega
      have h5 : d - (t + 1) = 0 := by omega
      rw [bridge_run, ih, h4, h5]
      cases f <;> simp [bridge_step, settle_with, h2, h3]

/-- Claim C4: `into_coroutine` returns the awaitable immediately and
still pending (it does not block until the native future completes), the
awaitable's status changes at exactly one instant — it is settled exactly
once — and it settles with exactly the value (resolved) or failure
(rejected) the underlying future produces when awaited directly. -/
theorem into_coroutine_settles_once (α ε : Type) (f : Except ε α) (d : Nat) :
    (into_coroutine f d).status = BStatus.pending ∧
    (∀ t, t ≤ d → (bridge_run (into_coroutine f d) t).status = BStatus.pending) ∧
    (∀ t, d < t → (bridge_run (into_coroutine f d) t).status = settle_with f) ∧
    (∀ t, (bridge_run (into_coroutine f d) (t + 1)).status ≠
        (bridge_run (into_coroutine f d) t).status ↔ t = d) ∧
    (∀ a, f = Except.ok a → settle_with f = BStatus.resolved a) ∧
    (∀ e, f = Except.error e → settle_with f = BStatus.rejected e) := by
  refine ⟨rfl, ?_, ?_, ?_, ?_, ?_⟩
  · intro t ht
    rw [bridge_run_char]
    simp [ht]
  · intro t ht
    rw [bridge_run_char]
    simp [Nat.not_le.mpr ht]
  · intro t
    rw [bridge_run_char, bridge_run_char]
    rcases Nat.lt_trichotomy t d with hlt | heq | hgt
    · have h2 : t ≤ d := Nat.le_of_lt hlt
      have h3 : t + 1 ≤ d := hlt
      simp [h2, h3]
      omega
    · subst heq
      simp [Nat.le_refl, Nat.not_succ_le_self, settle_with_ne_pending]
    · have h2 : ¬ t ≤ d := by omega
      have h3 : ¬ t + 1 ≤ d := by omega
      simp [h2, h3]
      omega
  · rintro a rfl
    rfl
  · rintro e rfl
    rfl

/-- Witness for C4 at a concrete future: result `ok 42`, three polls
needed; pending at instants 0..3, resolved with 42 from instant 4, and
the status changes exactly at instant 3. -/
theorem into_coroutine_settles_once_witness :
    (into_coroutine (Except.ok (ε := String) 42) 3).status = BStatus.pending ∧
    (bridge_run (into_coroutine (Except.ok (ε := String) 42) 3) 2).status =
      BStatus.pending ∧
    (bridge_run (into_coroutine (Except.ok (ε := String) 42) 3) 4).status =
      settle_with (Except.ok (ε := String) 42) ∧
    ((bridge_run (into_coroutine (Except.ok (ε := String) 42) 3) 4).status ≠
        (bridge_run (into_coroutine (Except.ok (ε := String) 42) 3) 3).status ↔
      (3 : Nat) = 3) ∧
    settle_with (Except.ok (ε := String) 42) = BStatus.resolved 42 :=
  ⟨(into_coroutine_settles_once Nat String (Except.ok 42) 3).1,
   (into_coroutine_settles_once Nat String (Except.ok 42) 3).2.1 2 (by decide),
   (into_coroutine_settles_once Nat String (Except.ok 42) 3).2.2.1 4 (by decide),
   (into_coroutine_settles_once Nat String (Except.ok 42) 3).2.2.2.1 3,
   (into_coroutine_settles_once Nat String (Except.ok 42) 3).2.2.2.2.1 42 rfl⟩

/-! ### Return values of the `_once` variants -/

/-- Counterexample to C9: neither `_once` variant returns an install
signal.  Concretely, calling `init_multi_thread_once` on the fresh
process state performs the install (the cell changes), calling it again
does not (the cell is unchanged), yet both calls return the identical
caller-visible value `()` — likewise for `init_current_thread_once` —
so the return value cannot tell the caller whether this particular call
performed the install. -/
theorem once_no_install_signal_counterexample :
    (init_multi_thread_once initialState).value =
      (init_multi_thread_once (init_multi_thread_once initialState).state).value ∧
    (init_multi_thread_once initialState).state.cell ≠ initialState.cell ∧
    (init_multi_thread_once (init_multi_thread_once initialState).state).state.cell =
      (init_multi_thread_once initialState).state.cell ∧
    (init_current_thread_once initialState).value =
      (init_current_thread_once (init_current_thread_once initialState).state).value ∧
    (init_current_thread_once initialState).state.cell ≠ initialState.cell ∧
    (init_current_thread_once (init_current_thread_once initialState).state).state.cell =
      (init_current_thread_once initialState).state.cell := by
  decide

/-- Claim C9 as amended: both `_once` variants return unit to their
caller — no install signal is returned.  `init_current_thread_once`
computes the did-this-call-install signal internally, in the
closure-captured `initialized` flag, which is true exactly when the cell
was empty, and uses it solely to gate starting the keep-alive driver;
`init_multi_thread_once` computes no such signal. -/
theorem once_variants_return_unit (s : TState) :
    (init_multi_thread_once s).value = some () ∧
    (init_current_thread_once s).value = some () ∧
    ((get_or_init_current_thread s).1 = true ↔ s.cell = none) ∧
    (init_current_thread_once s).state.driverCount =
      (if (get_or_init_current_thread s).1 then s.driverCount + 1 else s.driverCount) := by
  cases hc : s.cell <;>
    simp [init_multi_thread_once, init_current_thread_once, get_or_init_current_thread,
      multi_thread, current_thread, dropRuntime, start_current_thread, Ret.state,
      Ret.value, hc]

/-- Witness for the amended C9 at the fresh process state. -/
theorem once_variants_return_unit_witness :
    (init_multi_thread_once initialState).value = some () ∧
    (init_current_thread_once initialState).value = some () ∧
    ((get_or_init_current_thread initialState).1 = true ↔ initialState.cell = none) ∧
    (init_current_thread_once initialState).state.driverCount =
      (if (get_or_init_current_thread initialState).1 then initialState.driverCount + 1
       else initialState.driverCount) :=
  once_variants_return_unit initialState

end PyO3Asyncio
